import Mathlib

/-!
Verification development for the HypoPredict frontend repository.

The repository is a Streamlit dashboard; its logic of interest is
  * the risk-scoring heuristic `calculate_hypoglycemia_probability`
    (src/app/app.py and src/app/deploy_app2.py, identical copies),
  * the bounded prediction-history buffer of the forecast tick loop
    (src/app/deploy_app2.py, `show_forecast_page`),
  * the series combiner `fetch_predictions` (src/app/app.py): min-max
    normalization (`_normalize`), timestamp sorting, the unconditional
    drop of the first CNN entry, and the nearest-asof merge with a
    one-minute tolerance,
  * the page handlers' error behaviour (src/app/app.py and
    src/app/deploy_app.py) and the response parser of deploy_app.py.

Modelling conventions: Python floats are modelled as rationals (ℚ); a
possibly-NaN pandas value is `Option ℚ` with `none` for NaN; timestamps
are integers counting seconds, assumed parseable by `pd.to_datetime`
(the claims under study do not involve unparseable timestamps); the one
Gaussian draw inside the estimator is an explicit `noise` argument; the
network is an explicit argument describing the response.
-/

/-- The six-field feature record produced by `generate_simulated_ecg_features`. -/
structure FeatureVector where
  hrv_sdnn : ℚ
  hrv_rmssd : ℚ
  hr_mean : ℚ
  hr_variability : ℚ
  qt_interval : ℚ
  st_deviation : ℚ
deriving DecidableEq, Repr

/-- `max(0, (50 - features['hrv_sdnn']) / 100)` from
`calculate_hypoglycemia_probability`. -/
def hrv_factor (features : FeatureVector) : ℚ :=
  max 0 ((50 - features.hrv_sdnn) / 100)

/-- `abs(features['hr_mean'] - 70) / 200` from
`calculate_hypoglycemia_probability`. -/
def hr_factor (features : FeatureVector) : ℚ :=
  |features.hr_mean - 70| / 200

/-- The time-of-day factor of `calculate_hypoglycemia_probability`;
`hour` is `time_of_day.hour`, a value in 0..23. -/
def time_factor (hour : ℕ) : ℚ :=
  if (2 ≤ hour ∧ hour ≤ 4) ∨ (14 ≤ hour ∧ hour ≤ 16) then 0.15
  else if 6 ≤ hour ∧ hour ≤ 8 then 0.1
  else 0

/-- `np.mean` of a nonempty list of floats. -/
def npMean (l : List ℚ) : ℚ := l.sum / l.length

/-- The temporal-smoothing term of `calculate_hypoglycemia_probability`:
`0.3 * np.mean(history[-5:])` when the history is nonempty (the source
guards with `np.mean(history[-5:]) if len(history) >= 5 else
np.mean(history)`), else `0`.  Python `history[-5:]` is
`drop (length - 5)`. -/
def smoothingTerm (history : List ℚ) : ℚ :=
  if history.isEmpty then 0
  else
    let trend :=
      if 5 ≤ history.length then npMean (history.drop (history.length - 5))
      else npMean history
    0.3 * trend

/-- Shallow embedding of `calculate_hypoglycemia_probability` (identical
in src/app/app.py lines 116-158 and src/app/deploy_app2.py lines
165-207).  `hour` is `time_of_day.hour` and `noise` is the value of the
single draw `np.random.normal(0, 0.05)`. -/
def calculate_hypoglycemia_probability (features : FeatureVector) (hour : ℕ)
    (history : List ℚ) (noise : ℚ) : ℚ :=
  let base_prob : ℚ := 0.15
  let prob := base_prob + hrv_factor features + hr_factor features
    + time_factor hour + noise + smoothingTerm history
  max 0.05 (min 0.95 prob)

/-- The history update of the forecast tick loop
(src/app/deploy_app2.py lines 511-514):
`history.append(v); if len(history) > 60: history = history[-60:]`. -/
def appendHistory (history : List ℚ) (v : ℚ) : List ℚ :=
  let h2 := history ++ [v]
  if 60 < h2.length then h2.drop (h2.length - 60) else h2

/-- The last `n` elements of a list (Python `l[-n:]` for `n > 0`). -/
def lastN (n : ℕ) (l : List α) : List α := l.drop (l.length - n)

theorem appendHistory_eq_lastN (h : List ℚ) (v : ℚ) :
    appendHistory h v = lastN 60 (h ++ [v]) := by
  unfold appendHistory lastN
  dsimp only
  split_ifs with hgt
  · rfl
  · have h0 : (h ++ [v]).length - 60 = 0 := by omega
    rw [h0, List.drop_zero]

theorem lastN_lastN_append (n : ℕ) (x y : List α) :
    lastN n (lastN n x ++ y) = lastN n (x ++ y) := by
  unfold lastN
  rw [List.drop_append_eq_append_drop, List.drop_append_eq_append_drop,
    List.drop_drop]
  have h1 : x.length - n + ((x.drop (x.length - n) ++ y).length - n)
      = (x ++ y).length - n := by
    simp only [List.length_append, List.length_drop]
    omega
  have h2 : (x.drop (x.length - n) ++ y).length - n
        - (x.drop (x.length - n)).length
      = (x ++ y).length - n - x.length := by
    simp only [List.length_append, List.length_drop]
    omega
  rw [h1, h2]

theorem lastN_length_le (n : ℕ) (l : List α) : (lastN n l).length ≤ n := by
  unfold lastN
  rw [List.length_drop]
  omega

theorem foldl_appendHistory (vs : List ℚ) :
    ∀ h0 : List ℚ, h0.length ≤ 60 →
      vs.foldl appendHistory h0 = lastN 60 (h0 ++ vs) := by
  induction vs with
  | nil =>
    intro h0 hle
    simp only [List.foldl_nil, List.append_nil, lastN,
      Nat.sub_eq_zero_of_le hle, List.drop_zero]
  | cons v vs ih =>
    intro h0 _
    rw [List.foldl_cons, appendHistory_eq_lastN,
      ih _ (lastN_length_le 60 (h0 ++ [v])), lastN_lastN_append]
    simp only [List.append_assoc, List.singleton_append]

/-- Claim C2: the prediction history kept by the forecast tick loop
(src/app/deploy_app2.py lines 511-514) never exceeds length 60, and
after any sequence of appends the retained entries are exactly the 60
most recent in chronological arrival order (Python `vs[-60:]`, i.e.
`vs.drop (vs.length - 60)`). -/
theorem history_buffer_bounded_fifo (vs : List ℚ) :
    (vs.foldl appendHistory []).length ≤ 60 ∧
      vs.foldl appendHistory [] = vs.drop (vs.length - 60) := by
  have h := foldl_appendHistory vs [] (by simp)
  simp only [List.nil_append] at h
  exact ⟨h ▸ lastN_length_le 60 vs, h⟩

/-- Claim C1: for every feature vector, hour of day, history and noise
draw, `calculate_hypoglycemia_probability` returns a value in
[0.05, 0.95]. -/
theorem estimate_bounded (features : FeatureVector) (hour : ℕ)
    (history : List ℚ) (noise : ℚ) :
    0.05 ≤ calculate_hypoglycemia_probability features hour history noise ∧
      calculate_hypoglycemia_probability features hour history noise ≤ 0.95 := by
  unfold calculate_hypoglycemia_probability
  exact ⟨le_max_left _ _, max_le (by norm_num) (min_le_left _ _)⟩

/-- Claim C8: with `sdnn = 20`, `hr_mean = 70`, hour 3 and empty
history, the estimator's components are `hrv_factor = 0.30`,
`hr_factor = 0`, `time_factor = 0.15`, smoothing `0`, and the result is
`clamp (0.60 + noise) 0.05 0.95` for the single Gaussian draw `noise`,
whatever the remaining feature fields are. -/
theorem scenario_a_deterministic_modulo_noise
    (rmssd hrvv qt stdev noise : ℚ) :
    hrv_factor ⟨20, rmssd, 70, hrvv, qt, stdev⟩ = 0.30 ∧
    hr_factor ⟨20, rmssd, 70, hrvv, qt, stdev⟩ = 0 ∧
    time_factor 3 = 0.15 ∧
    smoothingTerm [] = 0 ∧
    calculate_hypoglycemia_probability ⟨20, rmssd, 70, hrvv, qt, stdev⟩ 3 [] noise
      = max 0.05 (min 0.95 (0.60 + noise)) := by
  refine ⟨by norm_num [hrv_factor], by norm_num [hr_factor],
    by norm_num [time_factor], rfl, ?_⟩
  unfold calculate_hypoglycemia_probability
  norm_num [hrv_factor, hr_factor, time_factor, smoothingTerm]


/-- Shallow embedding of `_normalize` (src/app/app.py lines 236-242) on
the value column of a pandas Series: `none` stands for NaN.  `min()` and
`max()` skip NaN (pandas `skipna=True`) and are NaN exactly when no
non-NaN value exists; in that case, or when `max == min`, the source
returns `s.fillna(0.0)` (NaN entries become 0, the rest are unchanged);
otherwise it returns `(s - min) / (max - min)` elementwise (NaN stays
NaN). -/
def _normalize (s : List (Option ℚ)) : List (Option ℚ) :=
  match (s.filterMap id).min?, (s.filterMap id).max? with
  | some min_v, some max_v =>
      if max_v = min_v then s.map (fun v => some (v.getD 0))
      else s.map (fun v => v.map (fun x => (x - min_v) / (max_v - min_v)))
  | _, _ => s.map (fun v => some (v.getD 0))

/-- Claim C3, counterexample: normalizing the constant series `[5]`
returns `[5]` (the degenerate branch is `s.fillna(0.0)`, which leaves
non-NaN entries unchanged), not the all-zero series the claim
demands. -/
theorem normalize_constant_five_not_zero :
    _normalize [some 5] = [some 5] ∧
      (_normalize [some 5] = [some 0]) = False := by
  exact ⟨rfl, eq_false (by decide)⟩

theorem filterMap_id_all_none (s : List (Option ℚ))
    (h : ∀ v ∈ s, v = none) : s.filterMap id = [] := by
  induction s with
  | nil => rfl
  | cons a t ih =>
    rw [List.filterMap_cons_none (by simpa using h a (List.mem_cons_self a t))]
    exact ih (fun v hv => h v (List.mem_cons_of_mem a hv))

theorem filterMap_id_all_some (s : List (Option ℚ)) (c : ℚ)
    (h : ∀ v ∈ s, v = some c) :
    s.filterMap id = List.replicate s.length c := by
  induction s with
  | nil => rfl
  | cons a t ih =>
    rw [List.filterMap_cons_some (by simpa using h a (List.mem_cons_self a t))]
    rw [List.length_cons, List.replicate_succ]
    exact congrArg (c :: ·) (ih (fun v hv => h v (List.mem_cons_of_mem a hv)))

theorem foldl_min_replicate (n : ℕ) (c : ℚ) :
    (List.replicate n c).foldl min c = c := by
  induction n with
  | zero => rfl
  | succ m ih => rw [List.replicate_succ, List.foldl_cons, min_self]; exact ih

theorem foldl_max_replicate (n : ℕ) (c : ℚ) :
    (List.replicate n c).foldl max c = c := by
  induction n with
  | zero => rfl
  | succ m ih => rw [List.replicate_succ, List.foldl_cons, max_self]; exact ih

theorem min?_replicate_succ (n : ℕ) (c : ℚ) :
    (List.replicate (n + 1) c).min? = some c := by
  rw [List.replicate_succ]
  show some ((List.replicate n c).foldl min c) = some c
  rw [foldl_min_replicate]

theorem max?_replicate_succ (n : ℕ) (c : ℚ) :
    (List.replicate (n + 1) c).max? = some c := by
  rw [List.replicate_succ]
  show some ((List.replicate n c).foldl max c) = some c
  rw [foldl_max_replicate]

/-- Claim C3, amended: the degenerate branch of `_normalize` is
`s.fillna(0.0)`, so a constant series (all entries equal and non-NaN)
is returned unchanged — all zeros only when the constant is zero —
while an entirely-NaN series maps to all zeros; in both cases no NaN
remains and no division is performed. -/
theorem normalize_constant_or_all_nan :
    (∀ (s : List (Option ℚ)) (c : ℚ), (∀ v ∈ s, v = some c) →
      _normalize s = s) ∧
    (∀ s : List (Option ℚ), (∀ v ∈ s, v = none) →
      _normalize s = List.replicate s.length (some 0)) := by
  constructor
  · intro s c h
    cases s with
    | nil => rfl
    | cons a t =>
      unfold _normalize
      rw [filterMap_id_all_some _ c h, List.length_cons,
        min?_replicate_succ, max?_replicate_succ]
      simp only [if_pos rfl]
      have hs := List.eq_replicate_of_mem h
      calc (a :: t).map (fun v => some (v.getD 0))
          = (List.replicate (a :: t).length (some c)).map
              (fun v => some (v.getD 0)) := by rw [← hs]
        _ = List.replicate (a :: t).length (some c) := by
              rw [List.map_replicate]
              rfl
        _ = a :: t := hs.symm
  · intro s h
    unfold _normalize
    rw [filterMap_id_all_none s h, List.min?_nil, List.max?_nil]
    have hs := List.eq_replicate_of_mem h
    calc s.map (fun v => some (v.getD 0))
        = (List.replicate s.length (none : Option ℚ)).map
            (fun v => some (v.getD 0)) := by rw [← hs]
      _ = List.replicate s.length (some 0) := by
            rw [List.map_replicate]
            rfl

/-- Witness for the amended C3 statement at the constant series `[5]`
and the all-NaN series `[none, none]`. -/
theorem normalize_constant_or_all_nan_witness :
    _normalize [some 5] = [some 5] ∧
      _normalize [none, none] = [some 0, some 0] := by
  constructor
  · exact normalize_constant_or_all_nan.1 [some 5] 5 (by decide)
  · exact normalize_constant_or_all_nan.2 [none, none] (by decide)

/-- `sort_index()` on a timestamp-indexed series: sort the entries by
timestamp ascending (src/app/app.py lines 255 and 260). -/
def sortByTime {α : Type} (s : List (ℤ × α)) : List (ℤ × α) :=
  List.insertionSort (fun a b => a.1 ≤ b.1) s

/-- `dropna()` on a timestamp-indexed series: keep the rows whose value
is not NaN. -/
def dropna (s : List (ℤ × Option ℚ)) : List (ℤ × ℚ) :=
  s.filterMap (fun p => p.2.map (fun v => (p.1, v)))

/-- `_normalize(series).dropna()` applied to a timestamp-indexed series:
normalize the value column, keep the index. -/
def normStep (s : List (ℤ × Option ℚ)) : List (ℤ × ℚ) :=
  dropna ((s.map Prod.fst).zip (_normalize (s.map Prod.snd)))

/-- The fusion branch of `fetch_predictions` (src/app/app.py lines
253-255): parse, sort by timestamp, normalize, drop NaN rows. -/
def processFusion (raw : List (ℤ × Option ℚ)) : List (ℤ × ℚ) :=
  normStep (sortByTime raw)

/-- The CNN branch of `fetch_predictions` (src/app/app.py lines
258-260): `pd.Series(payload.get('pred_cnn'))[1:]` drops the first
entry in raw (insertion) order, and only then the index is parsed and
sorted. -/
def processCnn (raw : List (ℤ × Option ℚ)) : List (ℤ × ℚ) :=
  normStep (sortByTime (raw.drop 1))

/-- The nearest row of the (fusion) series for a given timestamp, as
found by `pd.merge_asof(..., direction='nearest')`; ties go to the
earlier row of the sorted right series. -/
def nearestMatch (t : ℤ) (fus : List (ℤ × ℚ)) : Option (ℤ × ℚ) :=
  fus.foldl (fun acc p =>
    match acc with
    | none => some p
    | some q => if |t - p.1| < |t - q.1| then some p else some q) none

/-- `pd.merge_asof(cnn, fusion, direction='nearest',
tolerance=pd.Timedelta('1min')).dropna()` (src/app/app.py lines
263-270): each CNN row is paired with the nearest fusion row if that
row is within 60 seconds, and unmatched rows are dropped. -/
def mergeAsofNearest (cnn fus : List (ℤ × ℚ)) : List (ℤ × ℚ × ℚ) :=
  cnn.filterMap (fun p =>
    match nearestMatch p.1 fus with
    | some q => if |p.1 - q.1| ≤ 60 then some (p.1, p.2, q.2) else none
    | none => none)

/-- The pure combining core of `fetch_predictions` (src/app/app.py
lines 244-274), taking the two raw series of the decoded payload and
returning the `fusion`, `cnn` and `combined` series. -/
def fetch_predictions (fusionRaw cnnRaw : List (ℤ × Option ℚ)) :
    List (ℤ × ℚ) × List (ℤ × ℚ) × List (ℤ × ℚ) :=
  let pred_f := processFusion fusionRaw
  let pred_cnn := processCnn cnnRaw
  let merged := mergeAsofNearest pred_cnn pred_f
  (pred_f, pred_cnn, merged.map (fun r => (r.1, 0.4 * r.2.1 + 0.6 * r.2.2)))

/-- Claim C4, counterexample: `[1:]` is applied to the raw CNN series
before its index is sorted, so a shuffle of the raw entries changes
which entry is dropped.  Here the sorted series `[(0,1),(100,5)]` and
its shuffled permutation `[(100,5),(0,1)]` give different `cnn` (and
hence `combined`) outputs. -/
theorem combine_not_order_invariant :
    List.Perm [((100:ℤ), some (5:ℚ)), (0, some 1)] [(0, some 1), (100, some 5)] ∧
    (fetch_predictions [((0:ℤ), some (0:ℚ))] [(0, some 1), (100, some 5)]
      = fetch_predictions [(0, some 0)] [(100, some 5), (0, some 1)]) = False := by
  exact ⟨by decide, eq_false (by decide)⟩

theorem sorted_lt_of_sorted_le {α : Type} (s : List (ℤ × α))
    (hs : List.Sorted (fun a b => a.1 ≤ b.1) s)
    (hn : (s.map Prod.fst).Nodup) :
    List.Sorted (fun a b : ℤ × α => a.1 < b.1) s := by
  have hne : List.Pairwise (fun a b : ℤ × α => a.1 ≠ b.1) s :=
    List.pairwise_map.mp hn
  exact (List.Pairwise.and hs hne).imp (fun h => lt_of_le_of_ne h.1 h.2)

/-- Sorting by timestamp is insensitive to the input order as long as
the timestamps are distinct. -/
theorem sortByTime_eq_of_perm {α : Type} {l l' : List (ℤ × α)}
    (hp : l'.Perm l) (hn : (l.map Prod.fst).Nodup) :
    sortByTime l' = sortByTime l := by
  haveI : IsTotal (ℤ × α) (fun a b => a.1 ≤ b.1) :=
    ⟨fun a b => le_total a.1 b.1⟩
  haveI : IsTrans (ℤ × α) (fun a b => a.1 ≤ b.1) :=
    ⟨fun _ _ _ hab hbc => le_trans hab hbc⟩
  haveI : IsAntisymm (ℤ × α) (fun a b : ℤ × α => a.1 < b.1) :=
    ⟨fun _ _ h1 h2 => absurd h2 (not_lt.2 h1.le)⟩
  have hperm : (sortByTime l').Perm (sortByTime l) :=
    (List.perm_insertionSort _ l').trans
      (hp.trans (List.perm_insertionSort _ l).symm)
  have hn' : (l'.map Prod.fst).Nodup := ((hp.map Prod.fst).nodup_iff).mpr hn
  have hns : ((sortByTime l).map Prod.fst).Nodup :=
    (((List.perm_insertionSort _ l).map Prod.fst).nodup_iff).mpr hn
  have hns' : ((sortByTime l').map Prod.fst).Nodup :=
    (((List.perm_insertionSort _ l').map Prod.fst).nodup_iff).mpr hn'
  exact List.eq_of_perm_of_sorted hperm
    (sorted_lt_of_sorted_le _ (List.sorted_insertionSort _ l') hns')
    (sorted_lt_of_sorted_le _ (List.sorted_insertionSort _ l) hns)

/-- Claim C4, amended: `fetch_predictions` is invariant under the input
order of the raw fusion series, and under permutations of the raw CNN
series that keep the same first entry — because the unconditional
`[1:]` drop removes the first entry in arrival order before sorting
(timestamps assumed distinct, as the data model requires). -/
theorem combine_order_invariant_amended
    (fus fus' : List (ℤ × Option ℚ)) (a : ℤ × Option ℚ)
    (t t' : List (ℤ × Option ℚ))
    (hfp : fus'.Perm fus) (hfn : (fus.map Prod.fst).Nodup)
    (htp : t'.Perm t) (htn : (t.map Prod.fst).Nodup) :
    fetch_predictions fus' (a :: t') = fetch_predictions fus (a :: t) := by
  have h1 : sortByTime fus' = sortByTime fus := sortByTime_eq_of_perm hfp hfn
  have h2 : sortByTime t' = sortByTime t := sortByTime_eq_of_perm htp htn
  simp only [fetch_predictions, processFusion, processCnn,
    List.drop_succ_cons, List.drop_zero, h1, h2]

/-- Witness for the amended C4 statement: a shuffled fusion series and
a head-preserving shuffle of the CNN series give the same outputs. -/
theorem combine_order_invariant_amended_witness :
    fetch_predictions [((10:ℤ), some (1:ℚ)), (0, some 0)]
        ((5, some 2) :: [(7, some 4), (3, some 1)])
      = fetch_predictions [(0, some 0), (10, some 1)]
        ((5, some 2) :: [(3, some 1), (7, some 4)]) :=
  combine_order_invariant_amended _ _ _ _ _
    (by decide) (by decide) (by decide) (by decide)

/-- Claim C5: every entry of the combined output series comes from a
CNN row whose nearest fusion row lies within 60 seconds (rows with no
match inside the one-minute tolerance having been dropped), and its
value is `0.4 * cnn + 0.6 * fusion` at that match, both values taken
from the normalized series. -/
theorem combined_entries_within_tolerance
    (fusionRaw cnnRaw : List (ℤ × Option ℚ)) (e : ℤ × ℚ)
    (he : e ∈ (fetch_predictions fusionRaw cnnRaw).2.2) :
    ∃ c tf f,
      (e.1, c) ∈ (fetch_predictions fusionRaw cnnRaw).2.1 ∧
      nearestMatch e.1 (fetch_predictions fusionRaw cnnRaw).1 = some (tf, f) ∧
      |e.1 - tf| ≤ 60 ∧
      e.2 = 0.4 * c + 0.6 * f := by
  simp only [fetch_predictions] at he ⊢
  rw [List.mem_map] at he
  obtain ⟨r, hr, hre⟩ := he
  unfold mergeAsofNearest at hr
  rw [List.mem_filterMap] at hr
  obtain ⟨p, hp, hpr⟩ := hr
  cases hq : nearestMatch p.1 (processFusion fusionRaw) with
  | none =>
    simp only [hq] at hpr
    exact Option.noConfusion hpr
  | some q =>
    simp only [hq] at hpr
    by_cases htol : |p.1 - q.1| ≤ 60
    · rw [if_pos htol] at hpr
      injection hpr with hpr
      subst hpr
      subst hre
      exact ⟨p.2, q.1, q.2, by simpa using hp, by simpa using hq, htol, rfl⟩
    · rw [if_neg htol] at hpr
      exact Option.noConfusion hpr

/-- Witness for C5 at a concrete payload with a nonempty combined
series. -/
theorem combined_entries_within_tolerance_witness :
    ((3:ℤ), (0:ℚ)) ∈ (fetch_predictions [(0, some 0), (600, some 1)]
        [(0, some 9), (3, some 1), (7, some 3)]).2.2 ∧
    ∃ c tf f,
      (((3:ℤ), (0:ℚ)).1, c) ∈ (fetch_predictions [(0, some 0), (600, some 1)]
          [(0, some 9), (3, some 1), (7, some 3)]).2.1 ∧
      nearestMatch ((3:ℤ), (0:ℚ)).1 (fetch_predictions [(0, some 0), (600, some 1)]
          [(0, some 9), (3, some 1), (7, some 3)]).1 = some (tf, f) ∧
      |((3:ℤ), (0:ℚ)).1 - tf| ≤ 60 ∧
      ((3:ℤ), (0:ℚ)).2 = 0.4 * c + 0.6 * f := by
  have hmem : ((3:ℤ), (0:ℚ)) ∈ (fetch_predictions [(0, some 0), (600, some 1)]
      [(0, some 9), (3, some 1), (7, some 3)]).2.2 := by
    rw [show (fetch_predictions [(0, some 0), (600, some 1)]
        [(0, some 9), (3, some 1), (7, some 3)]).2.2
      = [((3:ℤ), (0:ℚ)), (7, 2/5)] from by
        norm_num [fetch_predictions, processFusion, processCnn, normStep,
          dropna, _normalize, sortByTime, mergeAsofNearest, nearestMatch,
          List.insertionSort, List.orderedInsert, List.filterMap,
          List.min?, List.max?]]
    exact List.mem_cons_self _ _
  exact ⟨hmem, combined_entries_within_tolerance
    [(0, some 0), (600, some 1)] [(0, some 9), (3, some 1), (7, some 3)]
    (3, 0) hmem⟩

/-- The page identifiers of the Streamlit session state. -/
inductive Page
  | welcome
  | load_data
  | select_person_day
  | forecast
deriving DecidableEq, Repr

/-- What a handler run surfaces to the user: a normal render, an
`st.error`/`st.warning` advisory followed by `st.stop()`, or an uncaught
Python exception (traceback). -/
inductive Surface
  | rendered
  | errorBox (msg : String)
  | exception (msg : String)
deriving DecidableEq, Repr

/-- The session state of src/app/app.py relevant to the person/day
selection and forecast pages. -/
structure SessionA where
  page : Page
  user_name : String
  data_source : String
  current_predictions :
    Option (List (ℤ × ℚ) × List (ℤ × ℚ) × List (ℤ × ℚ))
  selected_person : Option String
  selected_series : Option String
deriving DecidableEq, Repr

/-- `PERSON_TO_CODE` of src/app/app.py line 227. -/
def PERSON_TO_CODE : List (String × ℕ) := [("Person 1", 83), ("Person 2", 64)]

/-- The body of the "Load and Display Predictions" button of
`show_select_person_day_page` (src/app/app.py lines 363-379):
`code = PERSON_TO_CODE[person]` (KeyError if absent), then
`fetch_predictions(code)` inside try/except — on exception `st.error`
then `st.stop()` before any session-state write — and only on success
the predictions, person, series and page are stored.  `fetchResult`
stands for the outcome of the network call; the Bool records whether
the call was issued. -/
def loadAndDisplayPredictions (s : SessionA) (person series_choice : String)
    (fetchResult :
      Except String (List (ℤ × ℚ) × List (ℤ × ℚ) × List (ℤ × ℚ))) :
    SessionA × Bool × Surface :=
  match PERSON_TO_CODE.lookup person with
  | none => (s, false, Surface.exception "KeyError")
  | some _code =>
      match fetchResult with
      | Except.error e =>
          (s, true, Surface.errorBox ("Failed to fetch predictions: " ++ e))
      | Except.ok preds =>
          ({ s with current_predictions := some preds,
                    selected_person := some person,
                    selected_series := some series_choice,
                    page := Page.forecast }, true, Surface.rendered)

/-- One element of the duck-typed `predictions` array of the
deploy_app.py response: a float or an array of floats. -/
inductive RawPred
  | num (q : ℚ)
  | arr (l : List ℚ)
deriving DecidableEq, Repr

/-- The failure modes of the deploy_app.py "Run prediction" handler. -/
inductive PyError
  | requestException (msg : String)
  | apiError (status : ℕ)
  | missingPredictionsKey
  | noPredictions
  | indexError
  | typeError
  | keyError
deriving DecidableEq, Repr

/-- Which failure modes the handler surfaces via `st.error` + `st.stop`
(advisories); the others are uncaught Python exceptions. -/
def isAdvisory : PyError → Bool
  | PyError.requestException _ => true
  | PyError.apiError _ => true
  | PyError.missingPredictionsKey => true
  | PyError.noPredictions => true
  | _ => false

/-- Python `p[-1]` on one element of the nested branch
(`[p[-1] for p in raw_preds]`, src/app/deploy_app.py line 75):
IndexError on an empty inner list, TypeError on a non-list. -/
def lastOfPred : RawPred → Except PyError RawPred
  | RawPred.arr l =>
      match l.getLast? with
      | some x => Except.ok (RawPred.num x)
      | none => Except.error PyError.indexError
  | RawPred.num _ => Except.error PyError.typeError

/-- The list comprehension `[p[-1] for p in raw_preds]`: left to right,
the first exception propagates. -/
def mapLastOfPred : List RawPred → Except PyError (List RawPred)
  | [] => Except.ok []
  | p :: t =>
      match lastOfPred p with
      | Except.error e => Except.error e
      | Except.ok b =>
          match mapLastOfPred t with
          | Except.error e => Except.error e
          | Except.ok bs => Except.ok (b :: bs)

/-- The response-parsing section of the deploy_app.py "Run prediction"
handler (src/app/deploy_app.py lines 71-81): `raw_preds[0]` is indexed
(IndexError on an empty array) to pick the flat or nested shape, and
only afterwards `if not predictions` would surface the
"No predictions returned" advisory. -/
def parsePredictions (raw_preds : List RawPred) :
    Except PyError (List RawPred) :=
  match raw_preds with
  | [] => Except.error PyError.indexError
  | p0 :: rest =>
      match p0 with
      | RawPred.arr _ =>
          match mapLastOfPred (p0 :: rest) with
          | Except.error e => Except.error e
          | Except.ok predictions =>
              if predictions.isEmpty then Except.error PyError.noPredictions
              else Except.ok predictions
      | RawPred.num _ =>
          if (p0 :: rest).isEmpty then Except.error PyError.noPredictions
          else Except.ok (p0 :: rest)

/-- The network outcome of the deploy_app.py POST: a transport error, or
a status code with the decoded `predictions` field (`none` when the
response JSON lacks the key). -/
inductive HttpResp
  | netError (msg : String)
  | response (status : ℕ) (body : Option (List RawPred))
deriving DecidableEq, Repr

/-- The deploy_app.py "Run prediction" handler after the POST
(src/app/deploy_app.py lines 49-81): network error → `st.error` +
`st.stop`; non-200 → `st.error` + `st.stop`; missing `predictions` key →
`st.error` + `st.stop`; otherwise parse the array. -/
def runPrediction (resp : HttpResp) : Except PyError (List RawPred) :=
  match resp with
  | HttpResp.netError m => Except.error (PyError.requestException m)
  | HttpResp.response status body =>
      if status ≠ 200 then Except.error (PyError.apiError status)
      else
        match body with
        | none => Except.error PyError.missingPredictionsKey
        | some raw_preds => parsePredictions raw_preds

/-- `DATA_OPTIONS` of src/app/deploy_app.py lines 12-19. -/
def DATA_OPTIONS : List ((String × String) × String) :=
  [(("Person 8", "Day 3"),
    "https://drive.google.com/file/d/1rGpElJXOn7-gUVIKGGTlnSWoqWfbqNTB/view?usp=share_link")]

/-- The "Run prediction" button of deploy_app.py (lines 46-59):
`data_url = DATA_OPTIONS[selection]` raises KeyError on an absent key
before the POST is issued; otherwise the POST runs.  The Bool records
whether a network call was issued. -/
def runPredictionClick (selection : String × String)
    (respond : String → HttpResp) : Bool × Except PyError (List RawPred) :=
  match DATA_OPTIONS.lookup selection with
  | none => (false, Except.error PyError.keyError)
  | some data_url => (true, runPrediction (respond data_url))

/-- Claim C6: if the prediction fetch fails (network exception, timeout,
or a non-200 status such as HTTP 500) the action aborts with an error
surfaced and the prior session state is left entirely unchanged — the
app.py handler returns the session untouched on any fetch error, and the
deploy_app.py handler turns a transport error or an HTTP 500 into an
aborting error before any processing. -/
theorem fetch_failure_leaves_state_unchanged :
    (∀ (s : SessionA) (person series_choice err : String),
      (loadAndDisplayPredictions s person series_choice
        (Except.error err)).1 = s) ∧
    (∀ m : String,
      runPrediction (HttpResp.netError m)
        = Except.error (PyError.requestException m)) ∧
    (∀ body : Option (List RawPred),
      runPrediction (HttpResp.response 500 body)
        = Except.error (PyError.apiError 500)) := by
  refine ⟨?_, fun m => rfl, fun body => rfl⟩
  intro s person series_choice err
  unfold loadAndDisplayPredictions
  cases PERSON_TO_CODE.lookup person <;> rfl

/-- Claim C7, counterexample: selecting `("Person 6", "Day 4")` against
a `DATA_OPTIONS` mapping containing only `("Person 8", "Day 3")` issues
no network call, but the handler dies with an uncaught KeyError — not
the advisory the claim asserts. -/
theorem absent_key_keyerror_not_advisory :
    runPredictionClick ("Person 6", "Day 4") (fun _ => HttpResp.netError "")
      = (false, Except.error PyError.keyError) ∧
    isAdvisory PyError.keyError = false := by
  exact ⟨rfl, rfl⟩

/-- Claim C7, amended: a selection whose key is absent from the static
mapping issues no network call and mutates no session state (the page
stays where it was), but what is surfaced is an uncaught KeyError — the
lookup `DATA_OPTIONS[selection]` (resp. `PERSON_TO_CODE[person]`)
happens before any network or state-changing code — and not a dedicated
advisory; through the UI the case is unreachable because the select
widget offers exactly the mapping's keys. -/
theorem absent_key_rejected_amended (selection : String × String)
    (respond : String → HttpResp)
    (h : DATA_OPTIONS.lookup selection = none) :
    runPredictionClick selection respond
      = (false, Except.error PyError.keyError) ∧
    (∀ (s : SessionA) (person series_choice : String) fetchResult,
      PERSON_TO_CODE.lookup person = none →
        loadAndDisplayPredictions s person series_choice fetchResult
          = (s, false, Surface.exception "KeyError")) := by
  constructor
  · unfold runPredictionClick
    rw [h]
  · intro s person series_choice fetchResult hp
    unfold loadAndDisplayPredictions
    rw [hp]

/-- Witness for the amended C7 statement at the spec's scenario-B
selection. -/
theorem absent_key_rejected_amended_witness :
    runPredictionClick ("Person 6", "Day 4") (fun _ => HttpResp.netError "")
      = (false, Except.error PyError.keyError) ∧
    loadAndDisplayPredictions
        ⟨Page.select_person_day, "", "", none, none, none⟩
        "Person 6" "Fusion" (Except.error "boom")
      = (⟨Page.select_person_day, "", "", none, none, none⟩, false,
         Surface.exception "KeyError") :=
  ⟨(absent_key_rejected_amended ("Person 6", "Day 4")
      (fun _ => HttpResp.netError "") (by decide)).1,
   (absent_key_rejected_amended ("Person 6", "Day 4")
      (fun _ => HttpResp.netError "") (by decide)).2
      ⟨Page.select_person_day, "", "", none, none, none⟩
      "Person 6" "Fusion" (Except.error "boom") (by decide)⟩

theorem lastOfPred_ne_noPredictions (p : RawPred) :
    lastOfPred p ≠ Except.error PyError.noPredictions := by
  cases p with
  | num q => simp [lastOfPred]
  | arr l => cases hl : l.getLast? <;> simp [lastOfPred, hl]

theorem mapLastOfPred_ne_noPredictions (l : List RawPred) :
    mapLastOfPred l ≠ Except.error PyError.noPredictions := by
  induction l with
  | nil => simp [mapLastOfPred]
  | cons p t ih =>
    unfold mapLastOfPred
    cases hp : lastOfPred p with
    | error e =>
      intro hcontra
      injection hcontra with he
      exact lastOfPred_ne_noPredictions p (he ▸ hp)
    | ok b =>
      cases ht : mapLastOfPred t with
      | error e =>
        intro hcontra
        injection hcontra with he
        exact ih (he ▸ ht)
      | ok bs => simp

theorem mapLastOfPred_cons_ne_nil (p : RawPred) (t preds : List RawPred)
    (h : mapLastOfPred (p :: t) = Except.ok preds) : preds ≠ [] := by
  unfold mapLastOfPred at h
  cases hp : lastOfPred p with
  | error e => rw [hp] at h; exact Except.noConfusion h
  | ok b =>
    rw [hp] at h
    cases ht : mapLastOfPred t with
    | error e => rw [ht] at h; exact Except.noConfusion h
    | ok bs =>
      rw [ht] at h
      injection h with h
      rw [← h]
      exact List.cons_ne_nil b bs

/-- Claim C10: a 200 response with an empty predictions array fails at
the `raw_preds[0]` index access before the emptiness check runs, so the
dedicated "No predictions returned" advisory is unreachable for it; the
emptiness check only ever runs on a non-empty array (whose normalized
form is again non-empty), so the parser never produces that advisory. -/
theorem empty_predictions_unreachable_advisory :
    parsePredictions [] = Except.error PyError.indexError ∧
    ∀ raw_preds : List RawPred,
      (parsePredictions raw_preds
        = Except.error PyError.noPredictions) = False := by
  refine ⟨rfl, ?_⟩
  intro raw_preds
  refine eq_false ?_
  match raw_preds with
  | [] =>
    intro h
    injection h with h
    exact PyError.noConfusion h
  | RawPred.num q :: rest =>
    simp [parsePredictions]
  | RawPred.arr a :: rest =>
    cases hm : mapLastOfPred (RawPred.arr a :: rest) with
    | error e =>
      simp only [parsePredictions, hm]
      intro h
      injection h with h
      exact mapLastOfPred_ne_noPredictions _ (h ▸ hm)
    | ok predictions =>
      have hne : predictions ≠ [] := mapLastOfPred_cons_ne_nil _ _ _ hm
      simp only [parsePredictions, hm]
      rw [if_neg (by simpa [List.isEmpty_iff] using hne)]
      simp

/-- The session state of src/app/deploy_app2.py (lines 334-346). -/
structure SessionB where
  page : Page
  user_name : String
  data_source : String
  prediction_history : List ℚ
  monitoring_start : ℕ
  current_minute : ℕ
deriving DecidableEq, Repr

/-- `monitoring_time.hour` where `monitoring_time = monitoring_start +
timedelta(minutes=current_minute)` (src/app/deploy_app2.py line 466);
`monitoring_start` is counted in minutes since midnight. -/
def monitoringHour (s : SessionB) : ℕ :=
  (s.monitoring_start + s.current_minute) / 60 % 24

/-- One run of the forecast-page body in demo mode
(src/app/deploy_app2.py lines 503-602, buttons not pressed): sample
features, estimate, append to the history (trimming to 60), then
increment `current_minute`; if the new counter is below 960 sleep one
second and `st.rerun()` (first Bool), else report completion via
`st.success` (second Bool) without rerunning or changing the page. -/
def show_forecast_tick (s : SessionB) (features : FeatureVector)
    (noise : ℚ) : SessionB × Bool × Bool :=
  let current_prob := calculate_hypoglycemia_probability features
    (monitoringHour s) s.prediction_history noise
  let history2 := appendHistory s.prediction_history current_prob
  let s2 := { s with prediction_history := history2,
                     current_minute := s.current_minute + 1 }
  if s2.current_minute < 960 then (s2, true, false)
  else (s2, false, true)

theorem appendHistory_length (h : List ℚ) (v : ℚ) :
    (appendHistory h v).length = min (h.length + 1) 60 := by
  unfold appendHistory
  dsimp only
  split_ifs with hgt
  · rw [List.length_drop]
    simp only [List.length_append, List.length_singleton] at hgt ⊢
    omega
  · simp only [List.length_append, List.length_singleton] at hgt ⊢
    omega

/-- Claim C9: in demo mode each forecast tick increments the tick
counter by exactly one and appends exactly one new estimate to the
history (which stays capped at 60); a further tick is scheduled iff the
incremented counter is still below 960, and otherwise completion is
reported with no page transition — so after the counter reaches 960 the
page never auto-advances again. -/
theorem forecast_tick_behaviour (s : SessionB) (features : FeatureVector)
    (noise : ℚ) :
    (show_forecast_tick s features noise).1.current_minute
      = s.current_minute + 1 ∧
    (show_forecast_tick s features noise).1.prediction_history
      = appendHistory s.prediction_history
          (calculate_hypoglycemia_probability features (monitoringHour s)
            s.prediction_history noise) ∧
    (show_forecast_tick s features noise).1.prediction_history.length
      = min (s.prediction_history.length + 1) 60 ∧
    (show_forecast_tick s features noise).1.page = s.page ∧
    ((show_forecast_tick s features noise).2.1 = true
      ↔ s.current_minute + 1 < 960) ∧
    ((show_forecast_tick s features noise).2.2 = true
      ↔ 960 ≤ s.current_minute + 1) := by
  unfold show_forecast_tick
  dsimp only
  split_ifs with hlt
  · refine ⟨rfl, rfl, appendHistory_length _ _, rfl, ?_, ?_⟩
    · simp [hlt]
    · simp
      omega
  · refine ⟨rfl, rfl, appendHistory_length _ _, rfl, ?_, ?_⟩
    · simp
      omega
    · simp
      omega
